import Mathlib

/-!
# Verification of the figma_backend webhook server

Shallow embedding of `src/server.js`: the Figma webhook route
(`POST /figma-webhook`), its signature verifier `verifySignature`, the
Stripe webhook route (`POST /api/stripe/webhook`), and the Mongo-backed
event store, together with the cryptographic primitives the verifier
uses (HMAC-SHA256, hex digests, Node's `crypto.timingSafeEqual`).

Bytes are modelled as `Nat` lists with explicit reduction modulo `2 ^ 32`
where 32-bit overflow matters.  Fallible operations return `Except` or
`Option`.  All inputs exercised by the theorems are ASCII, for which the
`Char.toNat` byte encoding below agrees with UTF-8.
-/

set_option autoImplicit false

set_option maxRecDepth 1000000

namespace FigmaBackend

/-! ## SHA-256 (FIPS 180-4) over byte lists, and HMAC (RFC 2104)

`src/server.js` calls `crypto.createHmac('sha256', secret)`; the Node
library is embedded here directly so that digests are concrete values. -/

/-- Reduce modulo `2 ^ 32`: the 32-bit words of SHA-256. -/
def w32 (n : Nat) : Nat := n % 4294967296

/-- Right rotation of a 32-bit word. -/
def rotateR (n x : Nat) : Nat := w32 ((x >>> n) ||| (x <<< (32 - n)))

def bigSigma0 (x : Nat) : Nat := (rotateR 2 x) ^^^ (rotateR 13 x) ^^^ (rotateR 22 x)

def bigSigma1 (x : Nat) : Nat := (rotateR 6 x) ^^^ (rotateR 11 x) ^^^ (rotateR 25 x)

def smallSigma0 (x : Nat) : Nat := (rotateR 7 x) ^^^ (rotateR 18 x) ^^^ (x >>> 3)

def smallSigma1 (x : Nat) : Nat := (rotateR 17 x) ^^^ (rotateR 19 x) ^^^ (x >>> 10)

/-- `Ch(x,y,z)`; the 32-bit complement of `x` is `4294967295 - x`. -/
def chooseBits (x y z : Nat) : Nat := (x &&& y) ^^^ ((4294967295 - w32 x) &&& z)

def majority (x y z : Nat) : Nat := (x &&& y) ^^^ (x &&& z) ^^^ (y &&& z)

/-- The 64 SHA-256 round constants, written in decimal. -/
def K : List Nat :=
  [1116352408, 1899447441, 3049323471, 3921009573, 961987163,
   1508970993, 2453635748, 2870763221, 3624381080, 310598401,
   607225278, 1426881987, 1925078388, 2162078206, 2614888103,
   3248222580, 3835390401, 4022224774, 264347078, 604807628,
   770255983, 1249150122, 1555081692, 1996064986, 2554220882,
   2821834349, 2952996808, 3210313671, 3336571891, 3584528711,
   113926993, 338241895, 666307205, 773529912, 1294757372,
   1396182291, 1695183700, 1986661051, 2177026350, 2456956037,
   2730485921, 2820302411, 3259730800, 3345764771, 3516065817,
   3600352804, 4094571909, 275423344, 430227734, 506948616,
   659060556, 883997877, 958139571, 1322822218, 1537002063,
   1747873779, 1955562222, 2024104815, 2227730452, 2361852424,
   2428436474, 2756734187, 3204031479, 3329325298]

/-- The initial SHA-256 hash state, written in decimal. -/
def H0 : List Nat :=
  [1779033703, 3144134277, 1013904242, 2773480762,
   1359893119, 2600822924, 528734635, 1541459225]

/-- A `Nat` as 8 big-endian bytes (the 64-bit message length field). -/
def be64 (n : Nat) : List Nat :=
  [(n >>> 56) % 256, (n >>> 48) % 256, (n >>> 40) % 256, (n >>> 32) % 256,
   (n >>> 24) % 256, (n >>> 16) % 256, (n >>> 8) % 256, n % 256]

/-- SHA-256 message padding: append `0x80`, zeros, and the bit length,
reaching a multiple of 64 bytes. -/
def padMsg (msg : List Nat) : List Nat :=
  let zeros := (64 + 55 - (msg.length % 64)) % 64
  msg ++ [0x80] ++ List.replicate zeros 0 ++ be64 (8 * msg.length)

/-- Split a byte list into 64-byte blocks (fuel-driven structural recursion,
with enough fuel for the whole list). -/
def toBlocksAux : Nat → List Nat → List (List Nat)
  | 0, _ => []
  | _, [] => []
  | fuel + 1, l => l.take 64 :: toBlocksAux fuel (l.drop 64)

/-- Split a byte list into 64-byte blocks. -/
def toBlocks (l : List Nat) : List (List Nat) := toBlocksAux l.length l

/-- Pack a 64-byte block into 16 big-endian 32-bit words. -/
def toWords (block : List Nat) : List Nat :=
  (List.range 16).map fun i =>
    block.getD (4 * i) 0 * 16777216 + block.getD (4 * i + 1) 0 * 65536 +
      block.getD (4 * i + 2) 0 * 256 + block.getD (4 * i + 3) 0

/-- Extend the 16-word message schedule by `n` further words. -/
def extendW (w : List Nat) : Nat → List Nat
  | 0 => w
  | n + 1 =>
      let t := w32 (smallSigma1 (w.getD (w.length - 2) 0) + w.getD (w.length - 7) 0 +
        smallSigma0 (w.getD (w.length - 15) 0) + w.getD (w.length - 16) 0)
      extendW (w ++ [t]) n

/-- One SHA-256 compression round on the 8-word state. -/
def roundStep (st : List Nat) (kw : Nat × Nat) : List Nat :=
  match st with
  | [a, b, c, d, e, f, g, h] =>
      let t1 := w32 (h + bigSigma1 e + chooseBits e f g + kw.1 + kw.2)
      let t2 := w32 (bigSigma0 a + majority a b c)
      [w32 (t1 + t2), a, b, c, w32 (d + t1), e, f, g]
  | other => other

/-- Compress one 64-byte block into the running hash state. -/
def compressBlock (h : List Nat) (block : List Nat) : List Nat :=
  let w := extendW (toWords block) 48
  let st := (K.zip w).foldl roundStep h
  (h.zip st).map fun p => w32 (p.1 + p.2)

/-- SHA-256 of a byte list, as a 32-byte list. -/
def sha256 (msg : List Nat) : List Nat :=
  let hs := (toBlocks (padMsg msg)).foldl compressBlock H0
  (hs.map fun x => [(x >>> 24) % 256, (x >>> 16) % 256, (x >>> 8) % 256, x % 256]).flatten

/-- Lowercase hex digit. -/
def hexChar (n : Nat) : Char :=
  if n < 10 then Char.ofNat (48 + n) else Char.ofNat (87 + n)

/-- Lowercase hex rendering of a byte list (`digest('hex')`). -/
def toHex (bs : List Nat) : String :=
  String.mk ((bs.map fun b => [hexChar (b / 16), hexChar (b % 16)]).flatten)

/-- HMAC-SHA256 (RFC 2104): block size 64 bytes. -/
def hmacSha256 (key msg : List Nat) : List Nat :=
  let k0 := if key.length > 64 then sha256 key else key
  let kp := k0 ++ List.replicate (64 - k0.length) 0
  sha256 ((kp.map fun b => b ^^^ 0x5c) ++ sha256 ((kp.map fun b => b ^^^ 0x36) ++ msg))

/-- Bytes of a string.  All strings handled by the theorems are ASCII,
where `Char.toNat` agrees with Node's UTF-8 `Buffer.from`. -/
def strBytes (s : String) : List Nat := s.toList.map Char.toNat

/-- `crypto.createHmac('sha256', secret).update(msg).digest('hex')`. -/
def hmacSha256Hex (secret msg : String) : String :=
  toHex (hmacSha256 (strBytes secret) (strBytes msg))

/-! ## JSON values, `JSON.parse` and `JSON.stringify`

The server relies on `express.json()` (which runs `JSON.parse` on the
request body) and on `JSON.stringify` inside `verifySignature`.  The
model covers the integer fragment of JSON numbers; every payload the
claims exercise lies in this fragment. -/

inductive Json where
  | null
  | bool (b : Bool)
  | num (n : Int)
  | str (s : String)
  | arr (elems : List Json)
  | obj (fields : List (String × Json))
deriving Repr

def isWs (c : Char) : Bool := c = ' ' || c = '\t' || c = '\n' || c = '\r'

def skipWs : List Char → List Char
  | [] => []
  | c :: cs => if isWs c then skipWs cs else c :: cs

/-- Body of a JSON string literal after the opening quote: the decoded
characters and the remaining input after the closing quote. -/
def strChars : List Char → Option (List Char × List Char)
  | [] => none
  | c :: cs =>
    if c = '"' then some ([], cs)
    else if c = '\\' then
      match cs with
      | [] => none
      | e :: rest =>
        let esc : Option Char :=
          if e = '"' then some '"'
          else if e = '\\' then some '\\'
          else if e = '/' then some '/'
          else if e = 'n' then some '\n'
          else if e = 't' then some '\t'
          else if e = 'r' then some '\r'
          else none
        match esc with
        | some d => (strChars rest).map fun p => (d :: p.1, p.2)
        | none => none
    else (strChars cs).map fun p => (c :: p.1, p.2)

/-- Longest digit run at the head of the input. -/
def digitsSpan : List Char → (List Char × List Char)
  | [] => ([], [])
  | c :: cs =>
    if c.isDigit then
      let p := digitsSpan cs
      (c :: p.1, p.2)
    else ([], c :: cs)

def digitsToNat (ds : List Char) : Nat :=
  ds.foldl (fun acc c => 10 * acc + (c.toNat - 48)) 0

/-- JSON integer literal (optional minus, no leading zeros; fractions and
exponents are outside the modelled fragment and fail to parse). -/
def parseNumber (cs : List Char) : Option (Int × List Char) :=
  let negSplit : Bool × List Char :=
    match cs with
    | c :: rest => if c = '-' then (true, rest) else (false, cs)
    | [] => (false, cs)
  let ds := digitsSpan negSplit.2
  if ds.1.isEmpty then none
  else if ds.1.length > 1 && ds.1.headD '0' = '0' then none
  else
    let stop : Bool :=
      match ds.2 with
      | r :: _ => r = '.' || r = 'e' || r = 'E'
      | [] => false
    if stop then none
    else
      let n : Int := Int.ofNat (digitsToNat ds.1)
      some (if negSplit.1 then -n else n, ds.2)

/-- Insert a key/value pair with JavaScript object semantics: a repeated
key overwrites in place, keeping the first occurrence's position. -/
def objInsert (k : String) (v : Json) : List (String × Json) → List (String × Json)
  | [] => [(k, v)]
  | (k', v') :: rest => if k' = k then (k, v) :: rest else (k', v') :: objInsert k v rest

mutual

/-- Recursive-descent JSON value parser (fuel-driven). -/
def parseVal : Nat → List Char → Option (Json × List Char)
  | 0, _ => none
  | fuel + 1, cs =>
    match skipWs cs with
    | [] => none
    | c :: rest =>
      if c = 'n' then
        match rest with
        | 'u' :: 'l' :: 'l' :: r => some (.null, r)
        | _ => none
      else if c = 't' then
        match rest with
        | 'r' :: 'u' :: 'e' :: r => some (.bool true, r)
        | _ => none
      else if c = 'f' then
        match rest with
        | 'a' :: 'l' :: 's' :: 'e' :: r => some (.bool false, r)
        | _ => none
      else if c = '"' then (strChars rest).map fun p => (.str (String.mk p.1), p.2)
      else if c = '\x7b' then
        match skipWs rest with
        | d :: r2 => if d = '\x7d' then some (.obj [], r2) else parseMembers fuel (d :: r2) []
        | [] => none
      else if c = '[' then
        match skipWs rest with
        | d :: r2 => if d = ']' then some (.arr [], r2) else parseElems fuel (d :: r2) []
        | [] => none
      else (parseNumber (c :: rest)).map fun p => (.num p.1, p.2)

/-- Comma-separated array elements, after the opening bracket. -/
def parseElems : Nat → List Char → List Json → Option (Json × List Char)
  | 0, _, _ => none
  | fuel + 1, cs, acc =>
    match parseVal fuel cs with
    | none => none
    | some (v, rest) =>
      match skipWs rest with
      | c :: r2 =>
        if c = ',' then parseElems fuel r2 (acc ++ [v])
        else if c = ']' then some (.arr (acc ++ [v]), r2)
        else none
      | [] => none

/-- Comma-separated object members, after the opening brace. -/
def parseMembers : Nat → List Char → List (String × Json) → Option (Json × List Char)
  | 0, _, _ => none
  | fuel + 1, cs, acc =>
    match skipWs cs with
    | c :: rest =>
      if c = '"' then
        match strChars rest with
        | none => none
        | some (kcs, r2) =>
          match skipWs r2 with
          | d :: r3 =>
            if d = ':' then
              match parseVal fuel r3 with
              | none => none
              | some (v, r4) =>
                let acc2 := objInsert (String.mk kcs) v acc
                match skipWs r4 with
                | e :: r5 =>
                  if e = ',' then parseMembers fuel r5 acc2
                  else if e = '\x7d' then some (.obj acc2, r5)
                  else none
                | [] => none
            else none
          | [] => none
      else none
    | [] => none

end

/-- `JSON.parse`: a single JSON value followed only by whitespace. -/
def jsonParse (s : String) : Option Json :=
  match parseVal (4 * (s.length + 1)) s.toList with
  | some (v, rest) => if skipWs rest = [] then some v else none
  | none => none

/-- `express.json()` body parsing in its default strict mode: only
objects and arrays are accepted at top level; anything else is a
malformed body (HTTP 400 from the middleware). -/
def expressJsonParse (s : String) : Option Json :=
  match jsonParse s with
  | some (.obj fs) => some (.obj fs)
  | some (.arr es) => some (.arr es)
  | _ => none

/-- JSON string escaping for `JSON.stringify`. -/
def escChar (c : Char) : List Char :=
  if c = '"' then ['\\', '"']
  else if c = '\\' then ['\\', '\\']
  else if c = '\n' then ['\\', 'n']
  else if c = '\t' then ['\\', 't']
  else if c = '\r' then ['\\', 'r']
  else if c.toNat < 32 then ['\\', 'u', '0', '0', hexChar (c.toNat / 16), hexChar (c.toNat % 16)]
  else [c]

def escStr (s : String) : String :=
  "\"" ++ String.mk ((s.toList.map escChar).flatten) ++ "\""

mutual

/-- `JSON.stringify`: compact rendering, object keys in insertion order. -/
def Json.stringify : Json → String
  | .null => "null"
  | .bool true => "true"
  | .bool false => "false"
  | .num n => toString n
  | .str s => escStr s
  | .arr es => "[" ++ stringifyElems es ++ "]"
  | .obj fs => "\x7b" ++ stringifyFields fs ++ "\x7d"

def stringifyElems : List Json → String
  | [] => ""
  | [v] => v.stringify
  | v :: vs => v.stringify ++ "," ++ stringifyElems vs

def stringifyFields : List (String × Json) → String
  | [] => ""
  | [(k, v)] => escStr k ++ ":" ++ v.stringify
  | (k, v) :: fs => escStr k ++ ":" ++ v.stringify ++ "," ++ stringifyFields fs

end

/-! ## The webhook routes of `src/server.js`

`verifySignature` (lines 109-121), the `POST /figma-webhook` handler
(lines 124-144) together with the `express.json()` middleware in front
of it, the `figma_events` Mongo collection it writes through
`FigmaEvent.create` (schema lines 82-93: `event_type`, `file_key`,
`payload`, `received_at`; no unique index), and the raw-body Stripe
route `POST /api/stripe/webhook` (lines 44-64). -/

/-- `crypto.timingSafeEqual(Buffer.from(a), Buffer.from(b))`: throws a
`RangeError` when the byte lengths differ, otherwise compares without
short-circuiting (the accumulated OR of byte XORs). -/
def timingSafeEqual (a b : List Nat) : Except String Bool :=
  if a.length = b.length then
    .ok (((a.zip b).foldl (fun acc p => acc ||| (p.1 ^^^ p.2)) 0) == 0)
  else .error "RangeError: Input buffers must have the same byte length"

/-- `verifySignature(req)` from `src/server.js` lines 109-121.  Its
inputs are the configured `process.env.FIGMA_SECRET`, the
`X-Figma-Signature` header, and `req.body` — the body **already parsed**
by `express.json()`; the digest is computed over `JSON.stringify(req.body)`.
`Except.error` is an uncaught JavaScript exception. -/
def verifySignature (secret header : Option String) (body : Json) : Except String Bool :=
  match secret with
  | none => .ok true
  | some s =>
    match header with
    | none => .ok false
    | some h =>
      let digest := hmacSha256Hex s (Json.stringify body)
      timingSafeEqual (strBytes h) (strBytes digest)

/-- A stored document of the `figma_events` collection.  `event_type`
and `file_key` hold the destructured body fields (absent fields are
`undefined`, modelled as `none`); the schema has no unique index, so the
collection is a plain list in insertion order.  The `received_at`
timestamp default is wall-clock time and is not modelled. -/
structure FigmaEventDoc where
  event_type : Option Json
  file_key : Option Json
  payload : Json
deriving Repr

/-- `const (event_type, file_key, ...rest) = req.body` (line 130).
For an object the two fields are looked up and the rest spread keeps the
remaining fields; for an array, rest-spreading yields an object keyed by
the decimal indices; `express.json()`'s strict mode keeps every other
shape away from the handler, and for those the rest object is empty. -/
def lookupField (k : String) : List (String × Json) → Option Json
  | [] => none
  | (k', v) :: rest => if k' = k then some v else lookupField k rest

def removeField (k : String) : List (String × Json) → List (String × Json)
  | [] => []
  | (k', v) :: rest => if k' = k then removeField k rest else (k', v) :: removeField k rest

def destructureBody (body : Json) : Option Json × Option Json × Json :=
  match body with
  | .obj fs =>
      (lookupField "event_type" fs, lookupField "file_key" fs,
        .obj (removeField "file_key" (removeField "event_type" fs)))
  | .arr es => (none, none, .obj (es.enum.map fun p => (toString p.1, p.2)))
  | _ => (none, none, .obj [])

/-- Outcome of one request: an HTTP response with a status code, or an
exception that escaped the handler so that no response was sent. -/
inductive HttpOutcome where
  | response (status : Nat)
  | crashed (msg : String)
deriving Repr, DecidableEq

/-- The `POST /figma-webhook` handler body (lines 124-144), after the
`express.json()` middleware has produced `body`.  `storeOk` is the
durable store's behaviour for this request: `FigmaEvent.create` either
appends a document to `figma_events` (then 200) or throws (then 500 via
the catch).  A `verifySignature` exception escapes the handler
uncaught. -/
def figmaHandler (secret header : Option String) (body : Json) (storeOk : Bool)
    (store : List FigmaEventDoc) : HttpOutcome × List FigmaEventDoc :=
  match verifySignature secret header body with
  | .error e => (.crashed e, store)
  | .ok false => (.response 401, store)
  | .ok true =>
      let d := destructureBody body
      if storeOk then (.response 200, store ++ [⟨d.1, d.2.1, d.2.2⟩])
      else (.response 500, store)

/-- The full `POST /figma-webhook` route: `express.json()` parses the
raw body (rejecting malformed or non-strict bodies with 400 before the
handler runs), then the handler. -/
def figmaRoute (secret header : Option String) (rawBody : String) (storeOk : Bool)
    (store : List FigmaEventDoc) : HttpOutcome × List FigmaEventDoc :=
  match expressJsonParse rawBody with
  | none => (.response 400, store)
  | some body => figmaHandler secret header body storeOk store

/-- A Stripe event as returned by `stripe.webhooks.constructEvent`. -/
structure StripeEvent where
  type : String
  dataObject : Json
deriving Repr

/-- A call into the account subsystem (the spec's state-transition
intent, e.g. granting a subscription to a customer). -/
inductive AccountAction where
  | grantSubscription (customerRef : String)
deriving Repr, DecidableEq

/-- The `POST /api/stripe/webhook` route (lines 44-64).  The argument is
the outcome of the external library call
`stripe.webhooks.constructEvent(rawBody, sig, secret)`, which throws on
any signature failure.  On `checkout.session.completed` the source only
binds `session` and leaves the subscription update as a TODO comment, so
no account-subsystem call is emitted; the route answers
`res.json(...)` (status 200) on success and `res.status(400)` from the
catch.  Nothing is written to any store on this route. -/
def stripeWebhookRoute (constructEventResult : Except String StripeEvent) :
    HttpOutcome × List AccountAction :=
  match constructEventResult with
  | .error _ => (.response 400, [])
  | .ok event =>
      let _session := if event.type == "checkout.session.completed" then some event.dataObject else none
      (.response 200, [])

/-! ## Concrete payloads used by the theorems -/

/-- The digest `verifySignature` compares the header against: the HMAC
of the `JSON.stringify` of the parsed body.  Used to build requests
that the deployed verifier accepts. -/
def figmaDigest (secret : String) (body : Json) : String :=
  hmacSha256Hex secret (Json.stringify body)

/-- Scenario A raw body: event_type file_update, file_key abc123,
extra x. -/
def rawA : String :=
  "\x7b\"event_type\":\"file_update\",\"file_key\":\"abc123\",\"extra\":\"x\"\x7d"

/-- Scenario A parsed body. -/
def bodyA : Json :=
  Json.obj [("event_type", Json.str "file_update"), ("file_key", Json.str "abc123"),
    ("extra", Json.str "x")]

/-- The document the handler stores for scenario A. -/
def docA : FigmaEventDoc :=
  ⟨some (Json.str "file_update"), some (Json.str "abc123"),
    Json.obj [("extra", Json.str "x")]⟩

/-- A raw body with a space after the colon. -/
def rawSp : String := "\x7b\"a\": 1\x7d"

/-- The same raw body with its single space byte replaced by a tab: a
one-byte mutation that leaves the parsed JSON value unchanged. -/
def rawTab : String := "\x7b\"a\":\t1\x7d"

/-- The common parsed value of `rawSp` and `rawTab`. -/
def bodyNum : Json := Json.obj [("a", Json.num 1)]

end FigmaBackend

namespace FigmaBackend

/-! ## Helper lemmas -/

/-- Folding the OR of XORs over a list zipped with itself keeps the
accumulator: every XOR contributes zero. -/
theorem foldl_or_xor_self (a : List Nat) (acc : Nat) :
    (a.zip a).foldl (fun acc p => acc ||| (p.1 ^^^ p.2)) acc = acc := by
  induction a generalizing acc with
  | nil => rfl
  | cons x xs ih => simp [List.zip_cons_cons, Nat.xor_self, ih]

/-- `timingSafeEqual` on two copies of the same buffer reports equal. -/
theorem timingSafeEqual_self (a : List Nat) : timingSafeEqual a a = Except.ok true := by
  simp [timingSafeEqual, foldl_or_xor_self]

/-- A request whose header carries exactly the digest the verifier
computes is accepted. -/
theorem verifySignature_signed (s : String) (body : Json) :
    verifySignature (some s) (some (figmaDigest s body)) body = Except.ok true := by
  simp [verifySignature, figmaDigest, timingSafeEqual_self]

/-- Sanity check of the embedded HMAC-SHA256 against the classic
published test vector for the key "key" and the quick-brown-fox text. -/
theorem hmacSha256Hex_test_vector :
    hmacSha256Hex "key" "The quick brown fox jumps over the lazy dog" =
      "f7bc83f430538424b13298e6aa6fb143ef4d59a14946175997479dbc2d1a3cd8" := by
  decide

/-- Sanity check of the JSON parser on scenario A's raw body. -/
theorem jsonParse_rawA : expressJsonParse rawA = some bodyA := rfl

/-- Sanity check: the space and tab raw bodies parse to the same value. -/
theorem jsonParse_rawSp_rawTab :
    expressJsonParse rawSp = some bodyNum ∧ expressJsonParse rawTab = some bodyNum :=
  ⟨rfl, rfl⟩

/-! ## Claims -/

/-- C4 (confirmed): with no secret configured for the design-tool
sender, `verifySignature` skips verification and returns accept for
every header and every payload, and the handler proceeds past the
verification gate (a 200 when the store succeeds) — the documented
opt-in insecure mode. -/
theorem figma_no_secret_accepts :
    (∀ header body, verifySignature none header body = Except.ok true) ∧
    (∀ header body store,
      (figmaHandler none header body true store).1 = HttpOutcome.response 200) := by
  constructor
  · intro header body
    rfl
  · intro header body store
    simp [figmaHandler, verifySignature]

/-- C7 (confirmed): scenario A end to end — the unsigned design-tool
payload with event_type file_update, file_key abc123 and extra x, with
no secret configured, yields 200 and exactly one stored record whose
payload retains only the extra field; and in general, for every object
body the handler extracts event_type and file_key from the top-level
fields, removes them from the residual payload, stores the rest as
payload, and succeeds whatever the event type is (normalization never
fails on unknown types). -/
theorem figma_normalization_and_scenarioA :
    figmaRoute none none rawA true [] = (HttpOutcome.response 200, [docA]) ∧
    (∀ fs header store,
      figmaHandler none header (Json.obj fs) true store =
        (HttpOutcome.response 200,
          store ++ [⟨lookupField "event_type" fs, lookupField "file_key" fs,
            Json.obj (removeField "file_key" (removeField "event_type" fs))⟩])) := by
  constructor
  · rfl
  · intro fs header store
    simp [figmaHandler, verifySignature, destructureBody]

/-- C8 counterexample: a successfully verified checkout-completed event
from the payment-processor sender produces a 200 but emits no call to
the account subsystem — the emitted action list is empty, not a
grant-subscription intent. -/
theorem stripe_checkout_completed_no_grant :
    stripeWebhookRoute (Except.ok ⟨"checkout.session.completed",
        Json.obj [("customer", Json.str "cus_123"), ("id", Json.str "cs_test_1")]⟩) =
      (HttpOutcome.response 200, ([] : List AccountAction)) := rfl

/-- C8 (corrected): the payment-processor route recognizes
checkout.session.completed (it binds the session object) but the
subscription update is an unimplemented TODO in the source: no
state-transition intent is ever emitted to the account subsystem, for
any construct-event outcome. -/
theorem stripe_route_emits_no_actions :
    ∀ r, (stripeWebhookRoute r).2 = ([] : List AccountAction) := by
  intro r
  cases r <;> rfl

/-- C9 (confirmed): when the durable-store write fails on a request
that passed verification, the endpoint responds 500 and the store is
unchanged — the event is not durably accepted, and the handler performs
no retry of any kind (its state transition ends at the 500). -/
theorem figma_store_failure_500 (secret header : Option String) (body : Json)
    (store : List FigmaEventDoc)
    (hv : verifySignature secret header body = Except.ok true) :
    figmaHandler secret header body false store = (HttpOutcome.response 500, store) := by
  simp [figmaHandler, hv]

/-- Witness for C9 at a concrete input: no secret configured, empty
object body, failing store. -/
theorem figma_store_failure_500_witness :
    figmaHandler none none (Json.obj []) false [] = (HttpOutcome.response 500, []) :=
  figma_store_failure_500 none none (Json.obj []) [] rfl

/-- C10 (confirmed): the verdict (and the whole route outcome) is a
function of the configured secret, the header, and the parsed body
alone: two requests whose raw bytes differ but parse to the same JSON
value receive the same outcome under the same signature header. -/
theorem figma_verdict_depends_only_on_parsed_body (secret header : Option String)
    (raw1 raw2 : String) (storeOk : Bool) (store : List FigmaEventDoc)
    (hp : expressJsonParse raw1 = expressJsonParse raw2) :
    figmaRoute secret header raw1 storeOk store = figmaRoute secret header raw2 storeOk store := by
  unfold figmaRoute
  rw [hp]

/-- Witness for C10 at concrete inputs: the arrays with a space and
with a tab have different raw bytes but the same parse, hence the same
outcome. -/
theorem figma_verdict_depends_only_on_parsed_body_witness :
    figmaRoute (some "sec") (some "sig") "[1, 2]" true [] =
      figmaRoute (some "sec") (some "sig") "[1,\t2]" true [] :=
  figma_verdict_depends_only_on_parsed_body (some "sec") (some "sig") "[1, 2]" "[1,\t2]"
    true [] rfl

/-- C1 counterexample: two identical deliveries of the scenario A
payload, signed so that the verifier accepts, both return 200 and the
store ends with two records carrying the same (sender, externalId)
pair — the duplicate insert is a second record, not a no-op, because
the figma_events schema has no unique index. -/
theorem figma_duplicate_delivery_two_records :
    figmaRoute (some "sec") (some (figmaDigest "sec" bodyA)) rawA true [] =
      (HttpOutcome.response 200, [docA]) ∧
    figmaRoute (some "sec") (some (figmaDigest "sec" bodyA)) rawA true [docA] =
      (HttpOutcome.response 200, [docA, docA]) := by
  have hparse : expressJsonParse rawA = some bodyA := rfl
  have hv := verifySignature_signed "sec" bodyA
  constructor <;> (simp only [figmaRoute, hparse, figmaHandler, hv]; rfl)

/-- C1 (corrected): every accepted delivery appends one fresh record to
the store whatever the store already contains, so redelivering the same
payload appends a second identical record: there is no uniqueness
constraint on (sender, externalId) and duplicates accumulate. -/
theorem figma_redelivery_appends_second_record (secret header : Option String) (body : Json)
    (store : List FigmaEventDoc)
    (hv : verifySignature secret header body = Except.ok true) :
    (figmaHandler secret header body true store).2 =
      store ++ [⟨(destructureBody body).1, (destructureBody body).2.1,
        (destructureBody body).2.2⟩] ∧
    (figmaHandler secret header body true ((figmaHandler secret header body true store).2)).2 =
      store ++ [⟨(destructureBody body).1, (destructureBody body).2.1,
          (destructureBody body).2.2⟩,
        ⟨(destructureBody body).1, (destructureBody body).2.1,
          (destructureBody body).2.2⟩] := by
  simp [figmaHandler, hv]

/-- Witness for the amended C1 at a concrete input: two deliveries of
the scenario A body with no secret configured leave two records. -/
theorem figma_redelivery_appends_second_record_witness :
    (figmaHandler none none bodyA true ((figmaHandler none none bodyA true []).2)).2 =
      [] ++ [⟨(destructureBody bodyA).1, (destructureBody bodyA).2.1,
          (destructureBody bodyA).2.2⟩,
        ⟨(destructureBody bodyA).1, (destructureBody bodyA).2.1,
          (destructureBody bodyA).2.2⟩] :=
  (figma_redelivery_appends_second_record none none bodyA [] rfl).2

/-- C2 (code_bug): the code computes the HMAC over the JSON.stringify
of the already-parsed body, not over the raw request bytes.  At the
failing input: the raw body with a space after the colon and its
one-byte mutation (tab for space) parse identically, and both are
accepted under the same signature header; meanwhile the request whose
header is the genuine HMAC over its raw bytes is rejected, because the
re-serialized body differs byte-wise from the raw body. -/
theorem figma_hmac_over_stringified_body :
    rawSp.length = rawTab.length ∧
    ((rawSp.toList.zip rawTab.toList).countP fun p => p.1 != p.2) = 1 ∧
    (figmaRoute (some "sec") (some (figmaDigest "sec" bodyNum)) rawSp true []).1 =
      HttpOutcome.response 200 ∧
    (figmaRoute (some "sec") (some (figmaDigest "sec" bodyNum)) rawTab true []).1 =
      HttpOutcome.response 200 ∧
    verifySignature (some "sec") (some (hmacSha256Hex "sec" rawSp)) bodyNum =
      Except.ok false := by
  have hv := verifySignature_signed "sec" bodyNum
  refine ⟨by decide, by decide, ?_, ?_, by rfl⟩
  · have hparse : expressJsonParse rawSp = some bodyNum := rfl
    simp [figmaRoute, hparse, figmaHandler, hv]
  · have hparse : expressJsonParse rawTab = some bodyNum := rfl
    simp [figmaRoute, hparse, figmaHandler, hv]

/-- C3 (code_bug): with a secret configured, a signature header whose
length differs from the 64-character hex digest makes
`crypto.timingSafeEqual` throw a RangeError instead of returning a
reject verdict; the exception escapes the route handler uncaught, so
the rejection path is an uncontrolled error, not a normal verdict. -/
theorem figma_wrong_length_signature_throws :
    verifySignature (some "sec") (some "deadbeef") (Json.obj []) =
      Except.error "RangeError: Input buffers must have the same byte length" ∧
    figmaHandler (some "sec") (some "deadbeef") (Json.obj []) true [] =
      (HttpOutcome.crashed "RangeError: Input buffers must have the same byte length", []) := by
  have h1 : verifySignature (some "sec") (some "deadbeef") (Json.obj []) =
      Except.error "RangeError: Input buffers must have the same byte length" := rfl
  exact ⟨h1, by simp [figmaHandler, h1]⟩

/-- C5 counterexample: with a secret configured, a mismatching digest
whose length differs from the expected digest does not produce a 401 —
the handler crashes with the RangeError and no response is sent (no
event is stored either). -/
theorem figma_mismatch_without_401 :
    (figmaHandler (some "sec") (some "00") (Json.obj [("file_key", Json.str "k")]) true []).1 =
      HttpOutcome.crashed "RangeError: Input buffers must have the same byte length" ∧
    HttpOutcome.crashed "RangeError: Input buffers must have the same byte length" ≠
      HttpOutcome.response 401 ∧
    (figmaHandler (some "sec") (some "00") (Json.obj [("file_key", Json.str "k")]) true []).2 =
      [] := by
  have hv : verifySignature (some "sec") (some "00") (Json.obj [("file_key", Json.str "k")]) =
      Except.error "RangeError: Input buffers must have the same byte length" := rfl
  refine ⟨?_, by decide, ?_⟩ <;> simp [figmaHandler, hv]

/-- C5 (corrected): an event record is persisted only when verification
returned accept; with a secret configured, an absent header or an
equal-length digest mismatch yields 401 with no event stored, while a
header of a different length raises an uncaught exception — no
response at all is sent, and still no event is stored. -/
theorem figma_persist_only_verified :
    (∀ secret header body storeOk store,
      (figmaHandler secret header body storeOk store).2 ≠ store →
        verifySignature secret header body = Except.ok true) ∧
    (∀ s body storeOk store,
      figmaHandler (some s) none body storeOk store = (HttpOutcome.response 401, store)) ∧
    (∀ secret header body storeOk store,
      verifySignature secret header body = Except.ok false →
        figmaHandler secret header body storeOk store = (HttpOutcome.response 401, store)) ∧
    (∀ secret header body storeOk store e,
      verifySignature secret header body = Except.error e →
        figmaHandler secret header body storeOk store = (HttpOutcome.crashed e, store)) := by
  refine ⟨?_, ?_, ?_, ?_⟩
  · intro secret header body storeOk store hne
    cases hv : verifySignature secret header body with
    | error e => simp [figmaHandler, hv] at hne
    | ok b =>
      cases b with
      | false => simp [figmaHandler, hv] at hne
      | true => rfl
  · intro s body storeOk store
    simp [figmaHandler, verifySignature]
  · intro secret header body storeOk store hv
    simp [figmaHandler, hv]
  · intro secret header body storeOk store e hv
    simp [figmaHandler, hv]

/-- Witness for the amended C5 at concrete inputs: a stored record
implies an accepting verdict; missing header, equal-length mismatch and
wrong-length header each behave as stated. -/
theorem figma_persist_only_verified_witness :
    verifySignature none none (Json.obj []) = Except.ok true ∧
    figmaHandler (some "sec") none (Json.obj []) true [] = (HttpOutcome.response 401, []) ∧
    figmaHandler (some "sec")
        (some "0000000000000000000000000000000000000000000000000000000000000000")
        (Json.obj []) true [] = (HttpOutcome.response 401, []) ∧
    figmaHandler (some "sec") (some "00") (Json.obj []) true [] =
      (HttpOutcome.crashed "RangeError: Input buffers must have the same byte length", []) :=
  ⟨figma_persist_only_verified.1 none none (Json.obj []) true []
      (by simp [figmaHandler, verifySignature, destructureBody]),
    figma_persist_only_verified.2.1 "sec" (Json.obj []) true [],
    figma_persist_only_verified.2.2.1 (some "sec")
      (some "0000000000000000000000000000000000000000000000000000000000000000")
      (Json.obj []) true [] rfl,
    figma_persist_only_verified.2.2.2 (some "sec") (some "00") (Json.obj []) true []
      "RangeError: Input buffers must have the same byte length" rfl⟩

/-- C6 counterexample: on the payment-processor endpoint a signature
rejection is answered with 400 (from the catch around constructEvent),
not with the 401 the claim states for every sender's endpoint. -/
theorem stripe_rejection_400_not_401 :
    stripeWebhookRoute
        (Except.error "No signatures found matching the expected signature for payload") =
      (HttpOutcome.response 400, []) ∧
    HttpOutcome.response 400 ≠ HttpOutcome.response 401 :=
  ⟨rfl, by decide⟩

/-- C6 (corrected): the design-tool endpoint answers 400 on a malformed
body, 401 when verification returns reject, 200 when verification
accepts and the store succeeds (each delivery stores a record,
duplicates included), and 500 when the store fails; the
payment-processor endpoint answers 400 — not 401 — on signature
rejection and 200 on success, storing nothing. -/
theorem webhook_status_codes :
    (∀ secret header raw storeOk store, expressJsonParse raw = none →
        figmaRoute secret header raw storeOk store = (HttpOutcome.response 400, store)) ∧
    (∀ secret header body storeOk store,
      verifySignature secret header body = Except.ok false →
        figmaHandler secret header body storeOk store = (HttpOutcome.response 401, store)) ∧
    (∀ secret header body store,
      verifySignature secret header body = Except.ok true →
        (figmaHandler secret header body true store).1 = HttpOutcome.response 200 ∧
        figmaHandler secret header body false store = (HttpOutcome.response 500, store)) ∧
    (∀ e, stripeWebhookRoute (Except.error e) = (HttpOutcome.response 400, [])) ∧
    (∀ ev, stripeWebhookRoute (Except.ok ev) = (HttpOutcome.response 200, [])) := by
  refine ⟨?_, ?_, ?_, ?_, ?_⟩
  · intro secret header raw storeOk store hp
    simp [figmaRoute, hp]
  · intro secret header body storeOk store hv
    simp [figmaHandler, hv]
  · intro secret header body store hv
    constructor <;> simp [figmaHandler, hv]
  · intro e
    rfl
  · intro ev
    rfl

/-- Witness for the amended C6 at concrete inputs, discharging each
hypothesis: an unparseable body, an equal-length mismatching header, an
accepting verdict, and both payment-processor outcomes. -/
theorem webhook_status_codes_witness :
    figmaRoute (some "sec") (some "sig") "not json" true [] = (HttpOutcome.response 400, []) ∧
    figmaHandler (some "sec")
        (some "ffffffffffffffffffffffffffffffffffffffffffffffffffffffffffffffff")
        (Json.obj []) true [] = (HttpOutcome.response 401, []) ∧
    (figmaHandler none none (Json.obj []) true []).1 = HttpOutcome.response 200 ∧
    figmaHandler none none (Json.obj []) false [] = (HttpOutcome.response 500, []) ∧
    stripeWebhookRoute (Except.error "bad signature") = (HttpOutcome.response 400, []) ∧
    stripeWebhookRoute (Except.ok ⟨"invoice.paid", Json.obj []⟩) =
      (HttpOutcome.response 200, []) :=
  ⟨webhook_status_codes.1 (some "sec") (some "sig") "not json" true [] rfl,
    webhook_status_codes.2.1 (some "sec")
      (some "ffffffffffffffffffffffffffffffffffffffffffffffffffffffffffffffff")
      (Json.obj []) true [] rfl,
    (webhook_status_codes.2.2.1 none none (Json.obj []) [] rfl).1,
    (webhook_status_codes.2.2.1 none none (Json.obj []) [] rfl).2,
    webhook_status_codes.2.2.2.1 "bad signature",
    webhook_status_codes.2.2.2.2 ⟨"invoice.paid", Json.obj []⟩⟩

end FigmaBackend
